import Mathlib

set_option autoImplicit false

/-!
Verification development for the Cockpit CFDT encrypted-vault application.

The repository ships the React/TypeScript frontend (src/); the Rust backend
(src-tauri: crypto.rs, storage.rs, main.rs, config.rs) is referenced by the
README, FIX_STOCKAGE.md and the frontend bindings (utils/tauri.ts) but its
sources are not part of the snapshot.  Backend behaviour is therefore modelled
from the specification, while every frontend handler is translated directly
from the TypeScript sources.
-/

namespace Cockpit

/-! ## Error taxonomy (spec §7) -/

/-- Error taxonomy of the vault core: `AuthenticationFailed` (wrong password or
tampered data, never distinguished), `MalformedEnvelope`, `IoFailure`,
`LocationUnavailable`, `BackupNotFound`. -/
inductive VaultError where
  | AuthenticationFailed
  | MalformedEnvelope
  | IoFailure
  | LocationUnavailable
  | BackupNotFound
  deriving DecidableEq

/-! ## CryptoEngine (symbolic model)

Modelled from the spec: `src-tauri/src/crypto.rs` (AES-256-GCM + Argon2id) is
not in the sources.  The cipher is modelled symbolically in the ideal-crypto
style: the Argon2id KDF is an injective function of (password, salt), so the
derived key is the formal pair of its inputs; the GCM authentication tag is an
ideal MAC, injective in key, nonce, associated data and ciphertext, so it is
the formal tuple of those inputs.  Confidentiality is not in scope; functional
round-trip and authentication behaviour are. -/

/-- Argon2id parameters recorded in every envelope
(`kdf_params` of the on-disk JSON schema). -/
structure KdfParams where
  memory : Nat
  iterations : Nat
  parallelism : Nat
  deriving DecidableEq

/-- Modelled from the spec: the fixed Argon2id parameters of the backend
(README: 64 MB memory, 3 iterations, 4 lanes). -/
def defaultKdfParams : KdfParams := ⟨65536, 3, 4⟩

/-- Envelope format version tag. -/
def formatVersion : String := "1.0"

/-- Authenticated-cipher identifier recorded in the envelope. -/
def algorithmId : String := "AES-256-GCM"

/-- KDF identifier recorded in the envelope. -/
def kdfId : String := "Argon2id"

/-- Modelled from the spec: a 256-bit key derived by an ideal (injective)
memory-hard KDF from password and salt. -/
inductive DerivedKey where
  | mk (password : String) (salt : Nat)
  deriving DecidableEq

/-- Modelled from the spec: ideal authentication tag, determined by
(and determining) key, nonce, associated data and ciphertext. -/
inductive AuthTag where
  | mk (key : DerivedKey) (nonce : Nat) (aad : String × String) (ciphertext : List Nat)
  deriving DecidableEq

/-- The on-disk envelope `{version, algorithm, kdf, kdf_params, salt, nonce,
ciphertext, auth_tag}` (spec §3, §6; binary fields as byte lists). -/
structure VaultEnvelope where
  version : String
  algorithm : String
  kdf : String
  kdf_params : KdfParams
  salt : Nat
  nonce : Nat
  ciphertext : List Nat
  auth_tag : AuthTag
  deriving DecidableEq

/-- Key derivation (ideal KDF: the key is the formal pair of its inputs). -/
def deriveKey (password : String) (salt : Nat) : DerivedKey := .mk password salt

/-- Numeric code of a password string, used only to give the model keystream
concrete byte values. -/
def pwCode (s : String) : Nat := s.data.foldl (fun a c => a * 257 + c.toNat) 0

/-- One keystream byte of the modelled stream cipher. -/
def keystreamByte (k : DerivedKey) (nonce i : Nat) : Nat :=
  match k with
  | .mk pw salt => (pwCode pw + 131 * salt + 17 * nonce + 7 * i) % 256

/-- Keystream of a given length. -/
def keystream (k : DerivedKey) (nonce len : Nat) : List Nat :=
  (List.range len).map (keystreamByte k nonce)

/-- Pointwise XOR of two byte lists (truncates to the shorter). -/
def xorBytes (a b : List Nat) : List Nat := List.zipWith Nat.xor a b

/-- Associated authenticated data: the envelope version and algorithm
identifiers, bound to the ciphertext (spec §4.1). -/
def aadOf (version algorithm : String) : String × String := (version, algorithm)

/-- Modelled from the spec: `CryptoEngine::encrypt(plaintext, password)`.
Fresh randomness (salt, nonce) is passed explicitly; the key is derived from
password and salt; version and algorithm identifiers are bound as AAD. -/
def encrypt (plaintext : List Nat) (password : String) (salt nonce : Nat) : VaultEnvelope :=
  let key := deriveKey password salt
  let ct := xorBytes plaintext (keystream key nonce plaintext.length)
  { version := formatVersion
    algorithm := algorithmId
    kdf := kdfId
    kdf_params := defaultKdfParams
    salt := salt
    nonce := nonce
    ciphertext := ct
    auth_tag := .mk key nonce (aadOf formatVersion algorithmId) ct }

/-- Modelled from the spec: `CryptoEngine::decrypt(envelope, password)`.
Re-derives the key, checks the ideal MAC over (key, nonce, AAD, ciphertext)
and fails with `AuthenticationFailed` on any mismatch; wrong password and
tampered data take the same failure path. -/
def decrypt (env : VaultEnvelope) (password : String) : Except VaultError (List Nat) :=
  let key := deriveKey password env.salt
  if env.auth_tag = AuthTag.mk key env.nonce (aadOf env.version env.algorithm) env.ciphertext then
    .ok (xorBytes env.ciphertext (keystream key env.nonce env.ciphertext.length))
  else
    .error .AuthenticationFailed

theorem keystream_length (k : DerivedKey) (nonce len : Nat) :
    (keystream k nonce len).length = len := by
  simp [keystream]

theorem xorBytes_length (a b : List Nat) :
    (xorBytes a b).length = min a.length b.length := by
  simp [xorBytes]

theorem xorBytes_cancel : ∀ (p ks : List Nat), p.length ≤ ks.length →
    xorBytes (xorBytes p ks) ks = p
  | [], _, _ => rfl
  | _ :: _, [], h => by simp at h
  | a :: p, k :: ks, h => by
    have ih := xorBytes_cancel p ks (Nat.succ_le_succ_iff.mp (by simpa using h))
    simp [xorBytes] at ih ⊢
    exact ⟨Nat.xor_cancel_right k a, ih⟩

theorem encrypt_ciphertext_length (P : List Nat) (pw : String) (salt nonce : Nat) :
    (encrypt P pw salt nonce).ciphertext.length = P.length := by
  simp [encrypt, xorBytes_length, keystream_length]

theorem list_set_ne_of_get_ne (l : List Nat) (i b : Nat) (h : i < l.length)
    (hb : b ≠ l.get ⟨i, h⟩) : l.set i b ≠ l := by
  intro he
  apply hb
  have hq := congrArg (fun t : List Nat => t[i]?) he
  simp only [List.getElem?_set, if_pos rfl] at hq
  rw [List.getElem?_eq_getElem h] at hq
  simp at hq
  simp [List.get_eq_getElem, hq]

theorem decrypt_error_of_tag_ne (env : VaultEnvelope) (pw : String)
    (h : env.auth_tag ≠
      AuthTag.mk (deriveKey pw env.salt) env.nonce (aadOf env.version env.algorithm)
        env.ciphertext) :
    decrypt env pw = .error .AuthenticationFailed := by
  simp [decrypt, h]

theorem decrypt_encrypt_eq (P : List Nat) (pw : String) (salt nonce : Nat) :
    decrypt (encrypt P pw salt nonce) pw = .ok P := by
  have hk : (keystream (deriveKey pw salt) nonce P.length).length = P.length :=
    keystream_length _ _ _
  have hct : (xorBytes P (keystream (deriveKey pw salt) nonce P.length)).length = P.length := by
    rw [xorBytes_length, hk, Nat.min_self]
  simp only [decrypt, encrypt, if_pos rfl]
  rw [hct]
  exact congrArg Except.ok (xorBytes_cancel P _ (le_of_eq hk.symm))

/-- C2: decrypting the envelope produced by `encrypt(P, pw)` with the same
password `pw` returns exactly `P`. -/
theorem decrypt_encrypt_roundtrip (P : List Nat) (pw : String) (salt nonce : Nat) :
    decrypt (encrypt P pw salt nonce) pw = .ok P :=
  decrypt_encrypt_eq P pw salt nonce

/-- C3: decrypting with a different password, or after altering a byte of the
ciphertext, the auth tag, or the associated data (version identifier), fails
with `AuthenticationFailed`; the wrong-password failure and the tampered-data
failure are the same value, hence indistinguishable. -/
theorem decrypt_rejects_wrong_password_and_tampering
    (P : List Nat) (pw1 pw2 : String) (salt nonce : Nat)
    (i b : Nat) (t : AuthTag) (v : String)
    (hpw : pw1 ≠ pw2)
    (hi : i < (encrypt P pw1 salt nonce).ciphertext.length)
    (hb : b ≠ (encrypt P pw1 salt nonce).ciphertext.get ⟨i, hi⟩)
    (ht : t ≠ (encrypt P pw1 salt nonce).auth_tag)
    (hv : v ≠ formatVersion) :
    decrypt (encrypt P pw1 salt nonce) pw2 = .error .AuthenticationFailed ∧
    decrypt { encrypt P pw1 salt nonce with
        ciphertext := (encrypt P pw1 salt nonce).ciphertext.set i b } pw1
      = .error .AuthenticationFailed ∧
    decrypt { encrypt P pw1 salt nonce with auth_tag := t } pw1
      = .error .AuthenticationFailed ∧
    decrypt { encrypt P pw1 salt nonce with version := v } pw1
      = .error .AuthenticationFailed ∧
    decrypt (encrypt P pw1 salt nonce) pw2
      = decrypt { encrypt P pw1 salt nonce with
          ciphertext := (encrypt P pw1 salt nonce).ciphertext.set i b } pw1 := by
  have hset : (encrypt P pw1 salt nonce).ciphertext.set i b
      ≠ (encrypt P pw1 salt nonce).ciphertext :=
    list_set_ne_of_get_ne _ i b hi hb
  have h1 : decrypt (encrypt P pw1 salt nonce) pw2 = .error .AuthenticationFailed := by
    apply decrypt_error_of_tag_ne
    simp [encrypt, deriveKey, aadOf, hpw]
  have h2 : decrypt { encrypt P pw1 salt nonce with
      ciphertext := (encrypt P pw1 salt nonce).ciphertext.set i b } pw1
      = .error .AuthenticationFailed := by
    apply decrypt_error_of_tag_ne
    simp only [encrypt, deriveKey, aadOf] at hset ⊢
    simp [AuthTag.mk.injEq]
    intro h
    exact hset h.symm
  have h3 : decrypt { encrypt P pw1 salt nonce with auth_tag := t } pw1
      = .error .AuthenticationFailed := by
    apply decrypt_error_of_tag_ne
    simpa [encrypt, deriveKey, aadOf] using ht
  have h4 : decrypt { encrypt P pw1 salt nonce with version := v } pw1
      = .error .AuthenticationFailed := by
    apply decrypt_error_of_tag_ne
    simp [encrypt, deriveKey, aadOf, hv, Ne.symm hv]
  exact ⟨h1, h2, h3, h4, by rw [h1, h2]⟩

/-! ## StorageManager: atomic-write protocol (spec §4.3)

Modelled from the spec: `src-tauri/src/storage.rs` is not in the sources.
`save` serializes and encrypts to a temporary file in the same root, then
copies the current vault file into the backups directory, then atomically
replaces the live vault file with the temp file.  A crash is modelled as
stopping after a prefix of the protocol steps; an interrupted write can leave
arbitrary partial content, but only in the file the interrupted step writes
(the temp file — the live-file switch is an atomic rename). -/

/-- On-disk state of one storage root: the live vault file, the temporary
file used by the atomic-write protocol, and the backups directory. -/
structure Disk where
  live : Option (List Nat)
  temp : Option (List Nat)
  backups : List (List Nat)
  deriving DecidableEq

/-- The three steps of the atomic-write protocol, in order. -/
inductive SaveStep where
  | writeTemp
  | backupCurrent
  | atomicReplace
  deriving DecidableEq

/-- Modelled from the spec: the ordering of `StorageManager::save` —
write temp fully, back up the current vault, atomically replace. -/
def saveProtocol : List SaveStep := [.writeTemp, .backupCurrent, .atomicReplace]

/-- Modelled from the spec: effect of one completed protocol step
on the disk. -/
def applyStep (newEnv : List Nat) (d : Disk) : SaveStep → Disk
  | .writeTemp => { d with temp := some newEnv }
  | .backupCurrent =>
    match d.live with
    | none => d
    | some c => { d with backups := c :: d.backups }
  | .atomicReplace => { live := d.temp, temp := none, backups := d.backups }

/-- Run a list of protocol steps in order. -/
def runSteps (newEnv : List Nat) (d : Disk) (steps : List SaveStep) : Disk :=
  steps.foldl (applyStep newEnv) d

/-- Modelled from the spec: a completed `StorageManager::save`. -/
def save (newEnv : List Nat) (d : Disk) : Disk := runSteps newEnv d saveProtocol

/-- Modelled from the spec: execution stops (crash or IO failure) after `k`
completed protocol steps; if the protocol was not finished, the interrupted
write may additionally leave arbitrary junk in the temp file, the only file a
non-atomic write touches. -/
def crashDuringSave (newEnv : List Nat) (d : Disk) (k : Nat)
    (tempJunk : Option (List Nat)) : Disk :=
  let d1 := runSteps newEnv d (saveProtocol.take k)
  if k < saveProtocol.length then { d1 with temp := tempJunk } else d1

/-- C1: whatever the stopping point of the atomic-write protocol, the live
vault file is either the previous vault byte-for-byte or the new envelope
fully written; stopping before the atomic replace leaves the previous vault
untouched, and a completed save leaves the new envelope. -/
theorem atomic_save_crash_safe (d : Disk) (newEnv : List Nat) (k : Nat)
    (tempJunk : Option (List Nat)) :
    ((crashDuringSave newEnv d k tempJunk).live = d.live ∨
      (crashDuringSave newEnv d k tempJunk).live = some newEnv) ∧
    (k < 3 → (crashDuringSave newEnv d k tempJunk).live = d.live) ∧
    (save newEnv d).live = some newEnv := by
  have hsave : (save newEnv d).live = some newEnv := by
    cases hl : d.live <;>
      simp [save, runSteps, saveProtocol, applyStep, hl]
  refine ⟨?_, ?_, hsave⟩
  · match k with
    | 0 => exact Or.inl (by simp [crashDuringSave, saveProtocol, runSteps])
    | 1 => exact Or.inl (by simp [crashDuringSave, saveProtocol, runSteps, applyStep])
    | 2 =>
      cases hl : d.live <;>
        exact Or.inl (by simp [crashDuringSave, saveProtocol, runSteps, applyStep, hl])
    | (n + 3) =>
      refine Or.inr ?_
      cases hl : d.live <;>
        simp [crashDuringSave, saveProtocol, runSteps, applyStep, hl, List.take_of_length_le]
  · intro hk
    match k with
    | 0 => simp [crashDuringSave, saveProtocol, runSteps]
    | 1 => simp [crashDuringSave, saveProtocol, runSteps, applyStep]
    | 2 =>
      cases hl : d.live <;>
        simp [crashDuringSave, saveProtocol, runSteps, applyStep, hl]

/-! ## Frontend data model (src/src/types/index.ts, current revision) -/

structure SiteUrls where
  frontend : String
  backend : String
  phpmyadmin : String
  deriving DecidableEq

structure EnpassRefs where
  backend_protection : Option String
  joomla_admin : String
  mysql_su : String
  mysql_std : Option String
  editors : List String
  deriving DecidableEq

structure JoomlaAccount where
  username : String
  role : String
  enpass_ref : Option String
  deriving DecidableEq

structure Extension where
  name : String
  version : Option String
  critical : Bool
  deriving DecidableEq

structure ServerInfo where
  mysql_host : String
  database : String
  tablePrefixField : String
  ovh_vps : String
  deriving DecidableEq

structure TechInfo where
  joomla_version : String
  php_version : String
  template : String
  deriving DecidableEq

structure AnalyticsInfo where
  ga_id : Option String
  gtm_id : Option String
  cookie_solution : Option String
  looker_report_url : Option String
  deriving DecidableEq

structure ChecklistItem where
  task : String
  done : Bool
  date : Option String
  deriving DecidableEq

structure Intervention where
  date : String
  type_intervention : String
  description : String
  duration : String
  result : String
  deriving DecidableEq

structure Contact where
  name : String
  role : String
  email : Option String
  phone : Option String
  deriving DecidableEq

structure Site where
  id : String
  name : String
  enabled : Bool
  urls : SiteUrls
  enpass_refs : EnpassRefs
  admintools_login : Option String
  server : ServerInfo
  tech : TechInfo
  analytics : Option AnalyticsInfo
  joomla_accounts : List JoomlaAccount
  extensions : List Extension
  checklist : List ChecklistItem
  interventions : List Intervention
  contacts : List Contact
  notes : String
  last_update : String
  deriving DecidableEq

structure AppSettings where
  auto_lock_minutes : Nat
  auto_backup : Bool
  backup_keep_days : Nat
  enpass_cli_path : String
  enpass_vault_path : String
  enpass_use_separate_password : Bool
  deriving DecidableEq

structure AppData where
  sites : List Site
  settings : AppSettings
  deriving DecidableEq

/-- Frontend application status (`AppStatus` of types/index.ts). -/
inductive AppStatus where
  | locked
  | unlocked
  | initializing
  deriving DecidableEq

/-! ## MainLayout sidebar views (src/src/pages/MainLayout.tsx) -/

/-- The view selected in the sidebar (`ViewMode` of MainLayout.tsx). -/
inductive ViewMode where
  | all
  | upToDate
  | actionRequired
  | inProgress
  deriving DecidableEq

/-- JavaScript `String.prototype.includes` on char lists. -/
def listContainsSub (needle : List Char) : List Char → Bool
  | [] => needle.isEmpty
  | c :: t => needle.isPrefixOf (c :: t) || listContainsSub needle t

/-- JavaScript `hay.includes(needle)`. -/
def strIncludes (hay needle : String) : Bool :=
  listContainsSub needle.toList hay.toList

/-- The `filteredSites` predicate of MainLayout.tsx (lines 162-193): a site
survives the search filter and the current-view filter.  `recentIntervention
d` stands for the JavaScript Date comparison `new Date(d) > weekAgo`
(wall-clock time is a parameter of the model). -/
def filterSite (currentView : ViewMode) (searchQuery : String)
    (recentIntervention : String → Bool) (site : Site) : Bool :=
  if searchQuery ≠ "" ∧ ¬ strIncludes site.name.toLower searchQuery.toLower then
    false
  else
    match currentView with
    | .upToDate => site.enabled && site.checklist.all (fun item => item.done)
    | .actionRequired => site.enabled && site.checklist.any (fun item => !item.done)
    | .inProgress =>
      site.enabled &&
        (match site.interventions with
         | [] => false
         | i :: _ => recentIntervention i.date)
    | .all => site.enabled

/-- `filteredSites` of MainLayout.tsx: `appData.sites.filter(...)`. -/
def filteredSites (currentView : ViewMode) (searchQuery : String)
    (recentIntervention : String → Bool) (sites : List Site) : List Site :=
  sites.filter (fun site => filterSite currentView searchQuery recentIntervention site)

/-- C9: with the search box in its initial (empty) state the sidebar views
partition the enabled sites: a site is in the up-to-date view iff it is
enabled and every checklist item is done (an empty checklist counts as up to
date), in the action-required view iff it is enabled and some item is not
done, every enabled site is in exactly one of the two, and a disabled site is
in neither view nor in the all view. -/
theorem filteredSites_partition (recent : String → Bool) (sites : List Site)
    (site : Site) (hmem : site ∈ sites) :
    (site ∈ filteredSites .upToDate "" recent sites ↔
      site.enabled = true ∧ ∀ item ∈ site.checklist, item.done = true) ∧
    (site ∈ filteredSites .actionRequired "" recent sites ↔
      site.enabled = true ∧ ∃ item ∈ site.checklist, item.done = false) ∧
    (site.enabled = true → site.checklist = [] →
      site ∈ filteredSites .upToDate "" recent sites) ∧
    (site.enabled = true →
      (site ∈ filteredSites .upToDate "" recent sites ↔
        site ∉ filteredSites .actionRequired "" recent sites)) ∧
    (site.enabled = false →
      site ∉ filteredSites .upToDate "" recent sites ∧
      site ∉ filteredSites .actionRequired "" recent sites ∧
      site ∉ filteredSites .all "" recent sites) := by
  have hup : site ∈ filteredSites .upToDate "" recent sites ↔
      site.enabled = true ∧ ∀ item ∈ site.checklist, item.done = true := by
    simp [filteredSites, filterSite, List.mem_filter, hmem, List.all_eq_true]
  have hact : site ∈ filteredSites .actionRequired "" recent sites ↔
      site.enabled = true ∧ ∃ item ∈ site.checklist, item.done = false := by
    simp [filteredSites, filterSite, List.mem_filter, hmem, List.any_eq_true]
  refine ⟨hup, hact, ?_, ?_, ?_⟩
  · intro hen hcl
    rw [hup]
    exact ⟨hen, by simp [hcl]⟩
  · intro hen
    rw [hup, hact]
    constructor
    · rintro ⟨-, hall⟩ ⟨-, item, hitem, hnot⟩
      rw [hall item hitem] at hnot
      cases hnot
    · intro hnone
      refine ⟨hen, fun item hitem => ?_⟩
      by_contra hnd
      exact hnone ⟨hen, item, hitem, by simpa using hnd⟩
  · intro hdis
    refine ⟨?_, ?_, ?_⟩
    · rw [hup]; rintro ⟨h, -⟩; rw [hdis] at h; cases h
    · rw [hact]; rintro ⟨h, -⟩; rw [hdis] at h; cases h
    · simp [filteredSites, filterSite, List.mem_filter, hmem, hdis]

/-! ## App component state and save pipeline (App.tsx, src/unnamed/part_001) -/

/-- React state of the App component (src/unnamed/part_001 App.tsx): the
lock status, the decrypted data, and the password kept for saves. -/
structure AppReactState where
  status : AppStatus
  appData : Option AppData
  password : String
  deriving DecidableEq

/-- Outcome of an awaited backend call. -/
inductive SaveOutcome where
  | ok
  | ioError
  deriving DecidableEq

/-- Observable result of one `handleDataChange` run: the new React state,
whether the backend `saveData` was invoked, and whether a save failure was
caught and logged. -/
structure DataChangeResult where
  state : AppReactState
  saveCalled : Bool
  errorLogged : Bool
  deriving DecidableEq

/-- `handleDataChange` of App.tsx (src/unnamed/part_001, lines 182-195):
stores the new data in React state, then, when a password is held, awaits
`saveData(password, newData)`; a rejection is caught and logged, never
rethrown, and the state set before the save is left in place. -/
def handleDataChange (s : AppReactState) (newData : AppData)
    (outcome : SaveOutcome) : DataChangeResult :=
  let s1 := { s with appData := some newData }
  if s.password ≠ "" then
    match outcome with
    | .ok => { state := s1, saveCalled := true, errorLogged := false }
    | .ioError => { state := s1, saveCalled := true, errorLogged := true }
  else
    { state := s1, saveCalled := false, errorLogged := false }

/-- `handleLock` of App.tsx (src/unnamed/part_001 lines 170-179, and
src/src/App.tsx lines 40-43): after invoking the backend lock, clear the
React state — `appData := null`, `password := empty`, `status := locked` —
regardless of the backend outcome. -/
def handleLock (_s : AppReactState) : AppReactState :=
  { status := .locked, appData := none, password := "" }

/-! ## Backend session state machine (spec §4.5)

Modelled from the spec: the Tauri backend commands (`lock`, `change_password`)
live in src-tauri, which is not in the sources. -/

/-- In-memory session of the backend state machine: the lock flag, the held
password and the serialized decrypted document. -/
structure Session where
  locked : Bool
  password : String
  document : List Nat
  deriving DecidableEq

/-- Modelled from the spec: the backend `lock` command — Unlocked→Locked,
actively overwriting the in-memory password and document before releasing
them (zeroization). -/
def lockSession (_s : Session) : Session :=
  { locked := true, password := "", document := [] }

/-- Modelled from the spec: the backend `change_password(old, new)` command —
verify `old` by a trial decrypt of the on-disk envelope, re-encrypt the
current document under the new password with fresh salt and nonce, persist it
in one atomic save (`persistOk` is the IO outcome), and only after successful
persistence update the session password.  Returns (result, session, disk). -/
def changePasswordBackend (sess : Session) (disk : Option VaultEnvelope)
    (old newPw : String) (salt nonce : Nat) (persistOk : Bool) :
    Except VaultError Unit × Session × Option VaultEnvelope :=
  match disk with
  | none => (.error .IoFailure, sess, none)
  | some env =>
    match decrypt env old with
    | .error e => (.error e, sess, some env)
    | .ok _ =>
      let newEnv := encrypt sess.document newPw salt nonce
      if persistOk then
        (.ok (), { sess with password := newPw }, some newEnv)
      else
        (.error .IoFailure, sess, some env)

/-! ## Settings and UnlockScreen form handlers (src/src/pages) -/

/-- Observable result of one `handleChangePassword` submission: the error and
success banners, whether the backend `change_password` command was invoked,
the arguments of the `onPasswordChanged` calls, and the three password form
fields after the run. -/
structure ChangePasswordRun where
  error : String
  success : String
  backendCalled : Bool
  passwordChangedCalls : List String
  currentPassword : String
  newPassword : String
  confirmPassword : String
  deriving DecidableEq

/-- `handleChangePassword` of src/src/pages/Settings.tsx (lines 69-104):
guards — current password present, new password at least 8 characters,
confirmation matches — then awaits the backend `change_password`; on success
clears the three fields and calls `onPasswordChanged(newPassword)`; on
rejection surfaces the message (or a default) and leaves the fields alone. -/
def handleChangePassword (currentPassword newPassword confirmPassword : String)
    (backendOk : Bool) (backendMsg : String) : ChangePasswordRun :=
  if currentPassword = "" then
    { error := "Veuillez entrer votre mot de passe actuel", success := ""
      backendCalled := false, passwordChangedCalls := []
      currentPassword := currentPassword, newPassword := newPassword
      confirmPassword := confirmPassword }
  else if newPassword.length < 8 then
    { error := "Le nouveau mot de passe doit contenir au moins 8 caracteres"
      success := "", backendCalled := false, passwordChangedCalls := []
      currentPassword := currentPassword, newPassword := newPassword
      confirmPassword := confirmPassword }
  else if newPassword ≠ confirmPassword then
    { error := "Les nouveaux mots de passe ne correspondent pas", success := ""
      backendCalled := false, passwordChangedCalls := []
      currentPassword := currentPassword, newPassword := newPassword
      confirmPassword := confirmPassword }
  else if backendOk then
    { error := "", success := "Mot de passe modifie avec succes !"
      backendCalled := true, passwordChangedCalls := [newPassword]
      currentPassword := "", newPassword := "", confirmPassword := "" }
  else
    { error := if backendMsg = "" then "Erreur lors du changement de mot de passe"
        else backendMsg
      success := "", backendCalled := true, passwordChangedCalls := []
      currentPassword := currentPassword, newPassword := newPassword
      confirmPassword := confirmPassword }

/-- Observable result of one `handleUnlock` submission: the error banner and
which backend commands and callbacks ran. -/
structure UnlockRun where
  error : String
  createInitialCalled : Bool
  unlockCalled : Bool
  onUnlockCalled : Bool
  deriving DecidableEq

/-- `handleUnlock` of src/src/pages/UnlockScreen.tsx (lines 27-68).  `isDev`
is `import.meta.env.DEV` (mock path, no backend); in the first-time branch the
confirmation and minimum-length guards run before `createInitialData` and
`unlock`; otherwise `unlock` runs directly; a backend rejection is caught and
turned into a branch-specific error banner. -/
def handleUnlock (isDev isFirstTime : Bool) (password confirmPassword : String)
    (createOk unlockOk : Bool) : UnlockRun :=
  if isDev then
    { error := "", createInitialCalled := false, unlockCalled := false
      onUnlockCalled := true }
  else if isFirstTime then
    if password ≠ confirmPassword then
      { error := "Les mots de passe ne correspondent pas"
        createInitialCalled := false, unlockCalled := false
        onUnlockCalled := false }
    else if password.length < 8 then
      { error := "Le mot de passe doit contenir au moins 8 caractères"
        createInitialCalled := false, unlockCalled := false
        onUnlockCalled := false }
    else if createOk then
      if unlockOk then
        { error := "", createInitialCalled := true, unlockCalled := true
          onUnlockCalled := true }
      else
        { error := "Erreur lors de la création", createInitialCalled := true
          unlockCalled := true, onUnlockCalled := false }
    else
      { error := "Erreur lors de la création", createInitialCalled := true
        unlockCalled := false, onUnlockCalled := false }
  else if unlockOk then
    { error := "", createInitialCalled := false, unlockCalled := true
      onUnlockCalled := true }
  else
    { error := "Mot de passe incorrect", createInitialCalled := false
      unlockCalled := true, onUnlockCalled := false }

/-! ## Debounced save pipeline (spec §5)

Modelled from the spec: the current App.tsx is not among the sources (the
current src/src/pages/Settings.tsx refers to its 500 ms debounced save as the
single save path).  Mutations arrive in submission order as (timestamp,
document) pairs; a physical save fires with the most recent document once no
further mutation arrives within the window. -/

/-- The debounce window in milliseconds (Settings.tsx comment: 500 ms). -/
def debounceWindowMs : Nat := 500

/-- Modelled from the spec: the saves emitted by the debounced pipeline for a
time-ordered mutation trace.  A mutation followed within the window by
another is coalesced into the later one; otherwise its document is saved. -/
def debounceSaves (window : Nat) : List (Nat × AppData) → List AppData
  | [] => []
  | [(_, d)] => [d]
  | (t1, d1) :: (t2, d2) :: rest =>
    if t2 - t1 < window then
      debounceSaves window ((t2, d2) :: rest)
    else
      d1 :: debounceSaves window ((t2, d2) :: rest)

theorem debounceSaves_ends_with_latest (w : Nat) :
    ∀ (l : List (Nat × AppData)) (t : Nat) (d : AppData),
      ∃ pre, debounceSaves w (l ++ [(t, d)]) = pre ++ [d]
  | [], _, d => ⟨[], by simp [debounceSaves]⟩
  | [(t1, d1)], t, d => by
    simp only [List.cons_append, List.nil_append, debounceSaves]
    split
    · exact ⟨[], rfl⟩
    · exact ⟨[d1], rfl⟩
  | (t1, d1) :: (t2, d2) :: rest, t, d => by
    obtain ⟨pre, hpre⟩ := debounceSaves_ends_with_latest w ((t2, d2) :: rest) t d
    simp only [List.cons_append] at hpre ⊢
    rw [debounceSaves]
    split
    · exact ⟨pre, hpre⟩
    · exact ⟨d1 :: pre, by rw [hpre]; rfl⟩

/-- C5: two mutations submitted within the debounce window produce exactly
one physical save whose content is the second (latest) document, and in any
mutation trace the final save always carries the latest document — no
mutation is dropped without a save reflecting it or a later state. -/
theorem debounce_coalesces_two_mutations (t1 t2 : Nat) (d1 d2 : AppData)
    (hwin : t2 - t1 < debounceWindowMs) :
    debounceSaves debounceWindowMs [(t1, d1), (t2, d2)] = [d2] ∧
    (∀ (l : List (Nat × AppData)) (t : Nat) (d : AppData),
      ∃ pre, debounceSaves debounceWindowMs (l ++ [(t, d)]) = pre ++ [d]) := by
  constructor
  · simp [debounceSaves, hwin]
  · exact debounceSaves_ends_with_latest debounceWindowMs

/-! ## Storage-root relocation (spec §4.3, FIX_STOCKAGE.md)

Modelled from the spec: `set_data_location` lives in src-tauri/src/main.rs,
which is not in the sources. -/

/-- Contents of one storage root: the live vault file and the named backup
files. -/
structure RootDir where
  vault : Option (List Nat)
  backups : List (String × List Nat)
  deriving DecidableEq

/-- The filesystem across storage roots plus the ConfigRecord
(`custom_data_location`). -/
structure World where
  roots : String → RootDir
  config : Option String

/-- Modelled from the spec: `setDataLocation(newPath)` — copies the live
vault file and every backup from the current root into the new root
(overwriting same-named files, keeping unrelated ones), then updates the
ConfigRecord to point at the new root; the old root is deliberately left
untouched. -/
def setLocation (w : World) (cur newRoot : String) : World :=
  let src := w.roots cur
  let dst := w.roots newRoot
  let merged : RootDir :=
    { vault := src.vault
      backups := src.backups ++
        dst.backups.filter (fun b => src.backups.all (fun s => s.1 ≠ b.1)) }
  { roots := fun r => if r = newRoot then merged else w.roots r
    config := some newRoot }

/-- C6: after `setDataLocation(newPath)` the vault file and all backups of
the current root exist at the new root and the ConfigRecord points there,
while the original root is left present and unchanged. -/
theorem setLocation_copies_and_preserves_old_root (w : World) (cur newRoot : String)
    (v : List Nat) (hv : (w.roots cur).vault = some v) (hne : cur ≠ newRoot) :
    ((setLocation w cur newRoot).roots newRoot).vault = some v ∧
    (∀ b ∈ (w.roots cur).backups,
      b ∈ ((setLocation w cur newRoot).roots newRoot).backups) ∧
    (setLocation w cur newRoot).config = some newRoot ∧
    (setLocation w cur newRoot).roots cur = w.roots cur := by
  refine ⟨?_, ?_, rfl, ?_⟩
  · simp [setLocation, hv]
  · intro b hb
    simp only [setLocation, if_pos rfl]
    exact List.mem_append.mpr (Or.inl hb)
  · simp [setLocation, hne]

/-! ## Remaining claim theorems on the handler models -/

/-- C4: a save that fails while the session is unlocked is caught and logged
(not silently dropped and not rethrown), the in-memory document keeps the
unsaved changes, and the session stays unlocked with its password intact. -/
theorem save_failure_keeps_document_and_session (s : AppReactState) (newData : AppData)
    (hunlocked : s.status = .unlocked) (hpw : s.password ≠ "") :
    (handleDataChange s newData .ioError).saveCalled = true ∧
    (handleDataChange s newData .ioError).errorLogged = true ∧
    (handleDataChange s newData .ioError).state.appData = some newData ∧
    (handleDataChange s newData .ioError).state.status = .unlocked ∧
    (handleDataChange s newData .ioError).state.password = s.password := by
  rw [← hunlocked]
  simp [handleDataChange, hpw]

/-- C7: the backend changes the session password only after the re-encrypted
document has been persisted; on any failure (missing vault, failed trial
decrypt of the old password, failed persistence) the session and the disk are
unchanged, so a password that could decrypt the on-disk vault before the call
can still decrypt it afterwards; and the frontend propagates the new password
to its state only when the backend call succeeded. -/
theorem changePassword_keeps_password_in_sync (sess : Session) (env : VaultEnvelope)
    (old newPw : String) (salt nonce : Nat) (persistOk : Bool) (doc0 : List Nat)
    (hsync : decrypt env sess.password = .ok doc0) :
    ((changePasswordBackend sess (some env) old newPw salt nonce persistOk).1 = .ok () →
      (changePasswordBackend sess (some env) old newPw salt nonce persistOk).2.1.password
          = newPw ∧
      (changePasswordBackend sess (some env) old newPw salt nonce persistOk).2.2
          = some (encrypt sess.document newPw salt nonce)) ∧
    ((changePasswordBackend sess (some env) old newPw salt nonce persistOk).1 ≠ .ok () →
      (changePasswordBackend sess (some env) old newPw salt nonce persistOk).2.1 = sess ∧
      (changePasswordBackend sess (some env) old newPw salt nonce persistOk).2.2
          = some env) ∧
    (∀ env2, (changePasswordBackend sess (some env) old newPw salt nonce persistOk).2.2
          = some env2 →
      ∃ d, decrypt env2
          (changePasswordBackend sess (some env) old newPw salt nonce persistOk).2.1.password
          = .ok d) ∧
    (∀ cp np conf msg, (handleChangePassword cp np conf false msg).passwordChangedCalls
          = []) := by
  refine ⟨?_, ?_, ?_, ?_⟩
  · intro hok
    cases hdec : decrypt env old with
    | error e =>
      rw [changePasswordBackend] at hok
      simp [hdec] at hok
    | ok d =>
      cases persistOk with
      | false =>
        rw [changePasswordBackend] at hok
        simp [hdec] at hok
      | true =>
        simp [changePasswordBackend, hdec]
  · intro hfail
    cases hdec : decrypt env old with
    | error e => simp [changePasswordBackend, hdec]
    | ok d =>
      cases persistOk with
      | false => simp [changePasswordBackend, hdec]
      | true =>
        exact absurd (by simp [changePasswordBackend, hdec]) hfail
  · intro env2 henv2
    cases hdec : decrypt env old with
    | error e =>
      rw [changePasswordBackend] at henv2
      simp [hdec] at henv2
      subst henv2
      exact ⟨doc0, by simpa [changePasswordBackend, hdec] using hsync⟩
    | ok d =>
      cases persistOk with
      | false =>
        rw [changePasswordBackend] at henv2
        simp [hdec] at henv2
        subst henv2
        exact ⟨doc0, by simpa [changePasswordBackend, hdec] using hsync⟩
      | true =>
        rw [changePasswordBackend] at henv2
        simp [hdec] at henv2
        subst henv2
        exact ⟨sess.document, by
          simp [changePasswordBackend, hdec, decrypt_encrypt_eq]⟩
  · intro cp np conf msg
    by_cases h1 : cp = ""
    · simp [handleChangePassword, h1]
    · by_cases h2 : np.length < 8
      · simp [handleChangePassword, h1, h2]
      · by_cases h3 : np = conf
        · subst h3
          simp [handleChangePassword, h1, h2]
        · simp [handleChangePassword, h1, h2, h3]

/-- C8: locking an unlocked session moves it to Locked and overwrites the
in-memory password and document (backend zeroization, modelled from the
spec), and the frontend lock handler clears the React copies of the data and
password unconditionally. -/
theorem lock_zeroizes_password_and_document (sess : Session) (s : AppReactState)
    (_hunlocked : sess.locked = false) :
    (lockSession sess).locked = true ∧
    (lockSession sess).password = "" ∧
    (lockSession sess).document = [] ∧
    (handleLock s).status = .locked ∧
    (handleLock s).appData = none ∧
    (handleLock s).password = "" := by
  simp [lockSession, handleLock]

/-- C10: a form submission with an empty current password, a new password
shorter than 8 characters, or a mismatched confirmation sets an error banner
and returns before the backend `change_password` call, leaving the form
fields unchanged; `createInitialData` is only ever invoked with a confirmed
password of at least 8 characters; and the first-time unlock form in
production likewise errors out without any backend call on a weak or
unconfirmed password. -/
theorem weak_password_never_reaches_backend
    (cp np conf : String) (bOk : Bool) (bMsg : String)
    (pw cpw : String) (isDev isFirstTime createOk unlockOk : Bool)
    (hguard : cp = "" ∨ np.length < 8 ∨ np ≠ conf)
    (hpwguard : pw.length < 8 ∨ pw ≠ cpw) :
    ((handleChangePassword cp np conf bOk bMsg).backendCalled = false ∧
      (handleChangePassword cp np conf bOk bMsg).error ≠ "" ∧
      (handleChangePassword cp np conf bOk bMsg).passwordChangedCalls = [] ∧
      (handleChangePassword cp np conf bOk bMsg).currentPassword = cp ∧
      (handleChangePassword cp np conf bOk bMsg).newPassword = np ∧
      (handleChangePassword cp np conf bOk bMsg).confirmPassword = conf) ∧
    ((handleUnlock isDev isFirstTime pw cpw createOk unlockOk).createInitialCalled = true →
      8 ≤ pw.length ∧ pw = cpw) ∧
    (isDev = false → isFirstTime = true →
      (handleUnlock isDev isFirstTime pw cpw createOk unlockOk).createInitialCalled = false ∧
      (handleUnlock isDev isFirstTime pw cpw createOk unlockOk).unlockCalled = false ∧
      (handleUnlock isDev isFirstTime pw cpw createOk unlockOk).error ≠ "") := by
  refine ⟨?_, ?_, ?_⟩
  · by_cases h1 : cp = ""
    · simp [handleChangePassword, h1]
    · by_cases h2 : np.length < 8
      · simp [handleChangePassword, h1, h2]
      · by_cases h3 : np = conf
        · rcases hguard with h | h | h
          · exact absurd h h1
          · exact absurd h h2
          · exact absurd h3 h
        · simp [handleChangePassword, h1, h2, h3]
  · intro hcalled
    cases isDev with
    | true => simp [handleUnlock] at hcalled
    | false =>
      cases isFirstTime with
      | false =>
        rw [handleUnlock] at hcalled
        cases unlockOk <;> simp at hcalled
      | true =>
        by_cases hc : pw = cpw
        · subst hc
          by_cases hl : pw.length < 8
          · rw [handleUnlock] at hcalled
            simp [hl] at hcalled
          · exact ⟨Nat.le_of_not_lt hl, rfl⟩
        · rw [handleUnlock] at hcalled
          simp [hc] at hcalled
  · intro hdev hfirst
    subst hdev hfirst
    by_cases hc : pw = cpw
    · subst hc
      rcases hpwguard with h | h
      · simp [handleUnlock, h]
      · exact absurd rfl h
    · simp [handleUnlock, hc]

/-! ## Concrete instantiations of the conditional theorems -/

/-- Sample settings record. -/
def sampleSettings : AppSettings :=
  { auto_lock_minutes := 5, auto_backup := true, backup_keep_days := 30
    enpass_cli_path := "", enpass_vault_path := ""
    enpass_use_separate_password := false }

/-- Sample document with no sites. -/
def sampleData : AppData := { sites := [], settings := sampleSettings }

/-- Sample site: enabled, empty checklist. -/
def sampleSiteEmpty : Site :=
  { id := "s1", name := "CFDT Exemple", enabled := true
    urls := { frontend := "", backend := "", phpmyadmin := "" }
    enpass_refs := { backend_protection := none, joomla_admin := ""
                     mysql_su := "", mysql_std := none, editors := [] }
    admintools_login := none
    server := { mysql_host := "", database := "", tablePrefixField := "", ovh_vps := "" }
    tech := { joomla_version := "", php_version := "", template := "" }
    analytics := none, joomla_accounts := [], extensions := []
    checklist := [], interventions := [], contacts := []
    notes := "", last_update := "" }

/-- Sample document holding one site. -/
def sampleData2 : AppData := { sites := [sampleSiteEmpty], settings := sampleSettings }

/-- Sample two-root world for the relocation theorem. -/
def sampleWorld : World :=
  { roots := fun r =>
      if r = "oldroot" then { vault := some [1, 2], backups := [("b1", [3])] }
      else { vault := none, backups := [] }
    config := none }

/-- Concrete instantiation: a crash after two protocol steps (temp written,
backup taken, replace not reached) leaves the prior vault intact. -/
theorem atomic_save_crash_safe_witness :
    (crashDuringSave [7, 7] { live := some [1, 2], temp := none, backups := [] } 2
        (some [9])).live = some [1, 2] :=
  (atomic_save_crash_safe { live := some [1, 2], temp := none, backups := [] } [7, 7] 2
      (some [9])).2.1 (by decide)

/-- Concrete instantiation: decrypting a concrete envelope with the wrong
password fails with AuthenticationFailed. -/
theorem decrypt_rejects_witness :
    decrypt (encrypt [10, 20] "a" 1 2) "b" = .error .AuthenticationFailed :=
  (decrypt_rejects_wrong_password_and_tampering [10, 20] "a" "b" 1 2 0 999
      (AuthTag.mk (DerivedKey.mk "zz" 0) 0 ("x", "y") []) "2.0"
      (by decide) (by decide) (by decide) (by decide) (by decide)).1

/-- Concrete instantiation: a failed save in an unlocked session logs the
error. -/
theorem save_failure_witness :
    (handleDataChange { status := .unlocked, appData := none, password := "pw" }
        sampleData .ioError).errorLogged = true :=
  (save_failure_keeps_document_and_session
      { status := .unlocked, appData := none, password := "pw" } sampleData rfl
      (by decide)).2.1

/-- Concrete instantiation: two mutations 100 ms apart coalesce into one save
of the latest document. -/
theorem debounce_coalesces_witness :
    debounceSaves debounceWindowMs [(0, sampleData), (100, sampleData2)] = [sampleData2] :=
  (debounce_coalesces_two_mutations 0 100 sampleData sampleData2 (by decide)).1

/-- Concrete instantiation: relocation copies the vault to the new root. -/
theorem setLocation_witness :
    ((setLocation sampleWorld "oldroot" "newroot").roots "newroot").vault = some [1, 2] :=
  (setLocation_copies_and_preserves_old_root sampleWorld "oldroot" "newroot" [1, 2]
      (by simp [sampleWorld]) (by decide)).1

/-- Concrete instantiation: a successful password change updates the session
password. -/
theorem changePassword_witness :
    (changePasswordBackend { locked := false, password := "pw123", document := [5] }
        (some (encrypt [5] "pw123" 1 2)) "pw123" "NewPass456" 3 4 true).2.1.password
      = "NewPass456" :=
  ((changePassword_keeps_password_in_sync
      { locked := false, password := "pw123", document := [5] }
      (encrypt [5] "pw123" 1 2) "pw123" "NewPass456" 3 4 true [5]
      (decrypt_encrypt_eq [5] "pw123" 1 2)).1 rfl).1

/-- Concrete instantiation: locking clears the session password. -/
theorem lock_zeroizes_witness :
    (lockSession { locked := false, password := "pw", document := [1] }).password = "" :=
  (lock_zeroizes_password_and_document
      { locked := false, password := "pw", document := [1] }
      { status := .unlocked, appData := none, password := "pw" } rfl).2.1

/-- Concrete instantiation: an enabled site with an empty checklist is in the
up-to-date view. -/
theorem filteredSites_witness :
    sampleSiteEmpty ∈ filteredSites .upToDate "" (fun _ => false) [sampleSiteEmpty] :=
  (filteredSites_partition (fun _ => false) [sampleSiteEmpty] sampleSiteEmpty
      (List.mem_singleton.mpr rfl)).2.2.1 rfl rfl

/-- Concrete instantiation: an empty current-password field blocks the
backend change-password call. -/
theorem weak_password_witness :
    (handleChangePassword "" "short" "short" true "").backendCalled = false :=
  ((weak_password_never_reaches_backend "" "short" "short" true "" "short" "short"
      false true true true (Or.inl rfl) (Or.inl (by decide))).1).1

end Cockpit
